import Mathlib

/-!
# Voice payment page (`code/voice_payment.js`)

A shallow embedding of the WeChat mini-program page defined in
`voice_payment.js`, and theorems about its session state.

Modelling conventions.

* The page's `data` object is the record `PageData`.  `setData` stores each
  given value under its key in `this.data` and leaves the other keys alone,
  so every `setData` call is a record update.  A value of `undefined` is
  stored like any other.
* Every call the page makes to the platform (`wx.*`, the recorder manager,
  the inner audio context, the speech plugin, `setTimeout`) is appended to
  the log `World.effects`, in program order.
* Asynchronous platform calls complete later through a callback.  A call in
  flight is counted in one of the `pending*` fields of `World`; the callback
  is an `Event` that `step` delivers only while such a call is in flight.
  Events are delivered one at a time, as by the JavaScript event loop.
* Values coming from JSON are `JsVal`: the primitives and flat objects.
  Numbers are `JsNum`, the integers of the safe range (magnitude below
  `2^53`) with a sign, so that negative zero is a value; fractions, larger
  numbers and NaN are outside the model.  The tests `if (x)`, `x || y` and
  `x === 'complete'` are `truthy`, `jsOr` and equality.
* `console.log` / `console.error` are not modelled.
-/

namespace VoicePayment

/-! ## JavaScript values -/

/-- A JavaScript number whose value is an integer of the safe range: a sign
    and a magnitude below `2^53`.  Every such integer is a double, and
    JavaScript prints it in plain decimal. -/
structure JsNum where
  negative : Bool
  magnitude : Fin 9007199254740992
  deriving DecidableEq, Repr

/-- The test `n === 0`, true of zero and of negative zero. -/
def JsNum.isZero (n : JsNum) : Bool :=
  n.magnitude.val == 0

/-- JavaScript `String(n)`: the decimal digits, with a minus sign for a
    negative value other than negative zero. -/
def JsNum.toJsString (n : JsNum) : String :=
  if n.negative && !n.isZero then "-" ++ toString n.magnitude.val
  else toString n.magnitude.val

/-- Primitive values, as they appear in the fields of a flat JSON object. -/
inductive JsPrim where
  | undefined
  | null
  | bool (b : Bool)
  | num (n : JsNum)
  | str (s : String)
  deriving DecidableEq, Repr

/-- A JavaScript value: a primitive, or an object with primitive fields. -/
inductive JsVal where
  | undefined
  | null
  | bool (b : Bool)
  | num (n : JsNum)
  | str (s : String)
  | obj (fields : List (String × JsPrim))
  deriving DecidableEq, Repr

/-- JavaScript truthiness, the test made by `if (v)` and by `v || w`. -/
def truthy : JsVal → Bool
  | .undefined => false
  | .null => false
  | .bool b => b
  | .num n => !n.isZero
  | .str s => s != ""
  | .obj _ => true

/-- The JavaScript expression `a || b`. -/
def jsOr (a b : JsVal) : JsVal :=
  if truthy a then a else b

/-- Property read `v.key` on a value that is neither `undefined` nor `null`:
    a missing property, and any property of a primitive, reads `undefined`. -/
def getProp (v : JsVal) (key : String) : JsPrim :=
  match v with
  | .obj fields => (fields.lookup key).getD .undefined
  | _ => .undefined

/-- String conversion of a primitive inside a template literal. -/
def templateString : JsPrim → String
  | .undefined => "undefined"
  | .null => "null"
  | .bool true => "true"
  | .bool false => "false"
  | .num n => n.toJsString
  | .str s => s

/-! ## Page data and its surroundings -/

/-- The `data` object of the page. -/
structure PageData where
  isRecording : Bool
  isPlaying : Bool
  replyText : JsVal
  sessionId : JsVal
  unpaidItems : List JsVal
  currentOrder : JsVal
  recordingTime : Nat
  recognitionStatus : String
  deriving DecidableEq, Repr

/-- The `data` literal passed to `Page`. -/
def initialData : PageData :=
  { isRecording := false
    isPlaying := false
    replyText := .str ""
    sessionId := .str ""
    unpaidItems := []
    currentOrder := .null
    recordingTime := 0
    recognitionStatus := "idle" }

/-- The body `response.data` of a voice-pay response.  A field that the
    backend left out is `undefined`. -/
structure VoicePayData where
  success : JsVal
  reply_text : JsVal
  session_id : JsVal
  next_action : JsVal
  payment_order : JsVal
  deriving DecidableEq, Repr

/-- Calls made by the page to the platform. -/
inductive Effect where
  | authorize (scope : String)
  | recorderStart (duration sampleRate numberOfChannels encodeBitRate : Nat) (format : String)
  | recorderStop
  | vibrateShort
  | showToast (title : JsVal)
  | showModal (title content confirmText : String)
  | openSetting
  | readFile (filePath encoding : String)
  | request (method url : String) (body : List (String × JsVal))
  | textToSpeech (lang : String) (content : JsVal)
  | setTimeout (ms : Nat) (url : String)
  | navigateTo (url : String)
  | audioPlay (src : String)
  | audioStop
  deriving DecidableEq, Repr

/-- The page together with the platform state it interacts with. -/
structure World where
  /-- Content of `this.data`. -/
  data : PageData
  /-- Value returned by `wx.getStorageSync('userId')`. -/
  userId : JsVal
  /-- Platform calls made so far, oldest first. -/
  effects : List Effect
  /-- Whether `initRecorder` has registered the recorder callbacks. -/
  recorderHooked : Bool
  /-- Number of `wx.authorize` calls whose callback has not run. -/
  pendingAuthorize : Nat
  /-- Number of `wx.showModal` dialogs still open. -/
  pendingModals : Nat
  /-- Number of `readFile` calls in flight. -/
  pendingReads : Nat
  /-- Number of voice-pay requests in flight. -/
  pendingVoicePay : Nat
  /-- Number of voice-query-unpaid requests in flight. -/
  pendingQuery : Nat
  /-- Number of unpaid-items requests in flight. -/
  pendingUnpaid : Nat
  /-- Texts of the `textToSpeech` calls in flight, oldest first. -/
  pendingTTS : List JsVal
  /-- Number of listeners registered with `innerAudioContext.onEnded`. -/
  endedListeners : Nat
  /-- Navigation targets of the timers set and not yet elapsed, oldest
      first.  All timers have the same delay, so they elapse in this order. -/
  timers : List String
  deriving DecidableEq, Repr

/-- The page as constructed, before `onLoad`. -/
def initialWorld (userId : JsVal) : World :=
  { data := initialData
    userId := userId
    effects := []
    recorderHooked := false
    pendingAuthorize := 0
    pendingModals := 0
    pendingReads := 0
    pendingVoicePay := 0
    pendingQuery := 0
    pendingUnpaid := 0
    pendingTTS := []
    endedListeners := 0
    timers := [] }

/-- Append one platform call to the log. -/
def emit (w : World) (e : Effect) : World :=
  { w with effects := w.effects ++ [e] }

/-! ## The page's methods and callbacks -/

/-- Source `initRecorder`: registers the `onStop` and `onError` callbacks. -/
def initRecorder (w : World) : World :=
  { w with recorderHooked := true }

/-- Source `loadUnpaidItems`: issues the GET request. -/
def loadUnpaidItems (w : World) : World :=
  { emit w (.request "GET" "https://your-api.com/api/payment/unpaid-items"
      [("user_id", w.userId)]) with pendingUnpaid := w.pendingUnpaid + 1 }

/-- The `success` callback of `loadUnpaidItems`, on `res.data.success` and
    `res.data.data`. -/
def loadUnpaidItemsSuccess (w : World) (success : JsVal) (items : List JsVal) : World :=
  if truthy success then { w with data := { w.data with unpaidItems := items } } else w

/-- Source `onLoad`. -/
def onLoad (w : World) : World :=
  loadUnpaidItems (initRecorder w)

/-- Source `startRecord`: asks for the microphone permission. -/
def startRecord (w : World) : World :=
  { emit w (.authorize "scope.record") with pendingAuthorize := w.pendingAuthorize + 1 }

/-- The `success` callback of `wx.authorize` in `startRecord`. -/
def authorizeSuccess (w : World) : World :=
  let w1 : World := { w with data := { w.data with
    isRecording := true
    recognitionStatus := "recording"
    replyText := .str "请说话..." } }
  let w2 := emit w1 (.recorderStart 60000 16000 1 48000 "mp3")
  emit w2 .vibrateShort

/-- The `fail` callback of `wx.authorize` in `startRecord`. -/
def authorizeFail (w : World) : World :=
  { emit w (.showModal "需要麦克风权限" "请在设置中开启麦克风权限，以便使用语音支付功能" "去设置")
      with pendingModals := w.pendingModals + 1 }

/-- The `success` callback of the permission dialog, on `res.confirm`. -/
def modalSuccess (w : World) (confirm : Bool) : World :=
  if confirm then emit w .openSetting else w

/-- Source `stopRecord`. -/
def stopRecord (w : World) : World :=
  let w1 : World := { w with data := { w.data with
    isRecording := false
    recognitionStatus := "recognizing"
    replyText := .str "正在识别..." } }
  emit w1 .recorderStop

/-- Source `uploadAndRecognize`: starts reading the clip as base64. -/
def uploadAndRecognize (w : World) (filePath : String) : World :=
  { emit w (.readFile filePath "base64") with pendingReads := w.pendingReads + 1 }

/-- The recorder's `onStop` callback registered by `initRecorder`. -/
def recorderOnStop (w : World) (tempFilePath : String) (duration : Nat) : World :=
  let w1 : World := { w with data := { w.data with recordingTime := duration / 1000 } }
  uploadAndRecognize w1 tempFilePath

/-- The recorder's `onError` callback registered by `initRecorder`. -/
def recorderOnError (w : World) : World :=
  let w1 : World := { w with data := { w.data with
    recognitionStatus := "error"
    replyText := .str "录音失败，请检查麦克风权限" } }
  emit w1 (.showToast (.str "录音失败"))

/-- The `success` callback of `readFile`: posts the clip with the session id
    that the page holds at this moment. -/
def readFileSuccess (w : World) (audioBase64 : String) : World :=
  { emit w (.request "POST" "https://your-api.com/api/payment/voice-pay"
      [("user_id", w.userId), ("audio_data", .str audioBase64),
       ("session_id", w.data.sessionId)]) with pendingVoicePay := w.pendingVoicePay + 1 }

/-- The `fail` callback of `readFile`. -/
def readFileFail (w : World) : World :=
  { w with data := { w.data with
    recognitionStatus := "error"
    replyText := .str "文件读取失败" } }

/-- The `fail` callback of the voice-pay request. -/
def voicePayFail (w : World) : World :=
  { w with data := { w.data with
    recognitionStatus := "error"
    replyText := .str "网络连接失败，请稍后重试" } }

/-- Source `playTTSReply`: hands the text to the speech plugin. -/
def playTTSReply (w : World) (text : JsVal) : World :=
  { emit w (.textToSpeech "zh_CN" text) with pendingTTS := w.pendingTTS ++ [text] }

/-- The `success` callback of `textToSpeech`, on `res.filename`. -/
def ttsSuccess (w : World) (filename : String) : World :=
  let w1 : World := { w with data := { w.data with isPlaying := true } }
  { emit w1 (.audioPlay filename) with endedListeners := w.endedListeners + 1 }

/-- The `fail` callback of `textToSpeech`, for the call that was given `text`. -/
def ttsFail (w : World) (text : JsVal) : World :=
  emit w (.showToast text)

/-- The listeners registered with `innerAudioContext.onEnded`. -/
def audioEnded (w : World) : World :=
  if 0 < w.endedListeners then { w with data := { w.data with isPlaying := false } } else w

/-- The navigation target built in `handleVoicePaymentResponse`. -/
def confirmUrl (payment_order : JsVal) : String :=
  "/pages/payment/confirm?orderId=" ++ templateString (getProp payment_order "order_id")

/-- Source `handleVoicePaymentResponse`. -/
def handleVoicePaymentResponse (w : World) (data : VoicePayData) : World :=
  if truthy data.success then
    let w1 : World := { w with data := { w.data with
      recognitionStatus := "success"
      replyText := data.reply_text
      sessionId := jsOr data.session_id (.str "") } }
    let w2 := playTTSReply w1 data.reply_text
    if data.next_action = .str "complete" ∧ truthy data.payment_order then
      let w3 : World := { w2 with data := { w2.data with currentOrder := data.payment_order } }
      { emit w3 (.setTimeout 2000 (confirmUrl data.payment_order))
          with timers := w3.timers ++ [confirmUrl data.payment_order] }
    else
      w2
  else
    let w1 : World := { w with data := { w.data with
      recognitionStatus := "error"
      replyText := jsOr data.reply_text (.str "处理失败，请重试") } }
    playTTSReply w1 data.reply_text

/-- The function passed to `setTimeout`, for the timer that was set with
    target `url`. -/
def timerElapsed (w : World) (url : String) : World :=
  emit w (.navigateTo url)

/-- Source `queryUnpaidByVoice`: issues the POST request. -/
def queryUnpaidByVoice (w : World) : World :=
  { emit w (.request "POST" "https://your-api.com/api/payment/voice-query-unpaid"
      [("user_id", w.userId)]) with pendingQuery := w.pendingQuery + 1 }

/-- The `success` callback of `queryUnpaidByVoice`, on `res.data.success` and
    `res.data.reply_text`. -/
def queryUnpaidSuccess (w : World) (success reply_text : JsVal) : World :=
  if truthy success then
    let w1 : World := { w with data := { w.data with replyText := reply_text } }
    playTTSReply w1 reply_text
  else
    w

/-- Source `resetSession`. -/
def resetSession (w : World) : World :=
  { w with data := { w.data with
    sessionId := .str ""
    replyText := .str ""
    recognitionStatus := "idle"
    currentOrder := .null } }

/-- Source `onUnload`. -/
def onUnload (w : World) : World :=
  emit (emit w .recorderStop) .audioStop

/-! ## Events and the event loop -/

/-- Everything that can happen to the page: a call of one of its methods by
    the user interface, or the completion of a platform call. -/
inductive Event where
  | onLoad
  | unpaidItemsSuccess (success : JsVal) (items : List JsVal)
  | unpaidItemsFail
  | startRecord
  | authorizeSuccess
  | authorizeFail
  | modalSuccess (confirm : Bool)
  | stopRecord
  | recorderStop (tempFilePath : String) (duration : Nat)
  | recorderError
  | readFileSuccess (audioBase64 : String)
  | readFileFail
  | voicePaySuccess (data : VoicePayData)
  | voicePayFail
  | ttsSuccess (i : Nat) (filename : String)
  | ttsFail (i : Nat)
  | audioEnded
  | timerElapsed
  | queryUnpaidByVoice
  | queryUnpaidSuccess (success reply_text : JsVal)
  | queryUnpaidFail
  | resetSession
  | onUnload
  deriving DecidableEq, Repr

/-- Delivery of one event.  A completion event is possible only while the
    call it completes is in flight, and consumes it; the result is `none`
    when the event cannot happen in `w`. -/
def step (w : World) : Event → Option World
  | .onLoad => some (onLoad w)
  | .unpaidItemsSuccess success items =>
    if 0 < w.pendingUnpaid then
      some (loadUnpaidItemsSuccess { w with pendingUnpaid := w.pendingUnpaid - 1 } success items)
    else none
  | .unpaidItemsFail =>
    if 0 < w.pendingUnpaid then some { w with pendingUnpaid := w.pendingUnpaid - 1 } else none
  | .startRecord => some (startRecord w)
  | .authorizeSuccess =>
    if 0 < w.pendingAuthorize then
      some (authorizeSuccess { w with pendingAuthorize := w.pendingAuthorize - 1 })
    else none
  | .authorizeFail =>
    if 0 < w.pendingAuthorize then
      some (authorizeFail { w with pendingAuthorize := w.pendingAuthorize - 1 })
    else none
  | .modalSuccess confirm =>
    if 0 < w.pendingModals then
      some (modalSuccess { w with pendingModals := w.pendingModals - 1 } confirm)
    else none
  | .stopRecord => some (stopRecord w)
  | .recorderStop tempFilePath duration =>
    if w.recorderHooked then some (recorderOnStop w tempFilePath duration) else none
  | .recorderError =>
    if w.recorderHooked then some (recorderOnError w) else none
  | .readFileSuccess audioBase64 =>
    if 0 < w.pendingReads then
      some (readFileSuccess { w with pendingReads := w.pendingReads - 1 } audioBase64)
    else none
  | .readFileFail =>
    if 0 < w.pendingReads then
      some (readFileFail { w with pendingReads := w.pendingReads - 1 })
    else none
  | .voicePaySuccess data =>
    if 0 < w.pendingVoicePay then
      some (handleVoicePaymentResponse { w with pendingVoicePay := w.pendingVoicePay - 1 } data)
    else none
  | .voicePayFail =>
    if 0 < w.pendingVoicePay then
      some (voicePayFail { w with pendingVoicePay := w.pendingVoicePay - 1 })
    else none
  | .ttsSuccess i filename =>
    match w.pendingTTS[i]? with
    | some _ => some (ttsSuccess { w with pendingTTS := w.pendingTTS.eraseIdx i } filename)
    | none => none
  | .ttsFail i =>
    match w.pendingTTS[i]? with
    | some text => some (ttsFail { w with pendingTTS := w.pendingTTS.eraseIdx i } text)
    | none => none
  | .audioEnded => some (audioEnded w)
  | .timerElapsed =>
    match w.timers with
    | url :: rest => some (timerElapsed { w with timers := rest } url)
    | [] => none
  | .queryUnpaidByVoice => some (queryUnpaidByVoice w)
  | .queryUnpaidSuccess success reply_text =>
    if 0 < w.pendingQuery then
      some (queryUnpaidSuccess { w with pendingQuery := w.pendingQuery - 1 } success reply_text)
    else none
  | .queryUnpaidFail =>
    if 0 < w.pendingQuery then some { w with pendingQuery := w.pendingQuery - 1 } else none
  | .resetSession => some (resetSession w)
  | .onUnload => some (onUnload w)

/-- Delivery of a sequence of events, oldest first. -/
def run (w : World) : List Event → Option World
  | [] => some w
  | e :: es => (step w e).bind fun w1 => run w1 es

/-- The states the page can be in: those produced from the page as
    constructed by some sequence of events. -/
def Reachable (w : World) : Prop :=
  ∃ userId events, run (initialWorld userId) events = some w

/-- The five values documented for `recognitionStatus`. -/
def statusValues : List String :=
  ["idle", "recording", "recognizing", "success", "error"]

/-! ## Sample inputs -/

/-- A response that completes a payment for order `O123`. -/
def completeResponse : VoicePayData :=
  { success := .bool true
    reply_text := .str "已为您缴费"
    session_id := .str "s1"
    next_action := .str "complete"
    payment_order := .obj [("order_id", .str "O123")] }

/-- A successful response that carries no session id and no order. -/
def plainResponse : VoicePayData :=
  { success := .bool true
    reply_text := .str "您有3笔待缴费"
    session_id := .undefined
    next_action := .str "none"
    payment_order := .undefined }

/-- A failed response without a reply text. -/
def bareFailure : VoicePayData :=
  { success := .bool false
    reply_text := .undefined
    session_id := .undefined
    next_action := .undefined
    payment_order := .undefined }

/-- One whole turn up to the moment the voice-pay request is in flight:
    press, permission granted, release, clip delivered, clip read. -/
def turnEvents : List Event :=
  [.startRecord, .authorizeSuccess, .stopRecord, .recorderStop "clip.mp3" 2500,
   .readFileSuccess "QUJD"]

/-- Events after which a turn is being recognised: load, press, permission
    granted, release. -/
def busyEvents : List Event :=
  [.onLoad, .startRecord, .authorizeSuccess, .stopRecord]

/-- Events after which a voice-pay request is in flight and the session has
    been reset. -/
def staleEvents : List Event :=
  .onLoad :: turnEvents ++ [.resetSession]

/-- The page while the voice-pay request of its first turn is in flight. -/
def uploadingWorld : World :=
  (run (initialWorld (.str "u1")) (.onLoad :: turnEvents)).getD (initialWorld (.str "u1"))

/-- A response that makes `handleVoicePaymentResponse` store an order:
    truthy `success`, `next_action === 'complete'`, truthy `payment_order`. -/
def Completing (d : VoicePayData) : Prop :=
  truthy d.success = true ∧ d.next_action = .str "complete" ∧ truthy d.payment_order = true

/-- The transition table of `recognitionStatus`, by kind of event: the value
    after the event given the value before.  `step_status` compares `step`
    with it. -/
def statusAfter (old : String) : Event → String
  | .authorizeSuccess => "recording"
  | .stopRecord => "recognizing"
  | .recorderError => "error"
  | .readFileFail => "error"
  | .voicePayFail => "error"
  | .voicePaySuccess d => if truthy d.success then "success" else "error"
  | .resetSession => "idle"
  | _ => old

/-- The page after `onLoad` and one turn whose response was `completeResponse`. -/
def paidEvents : List Event :=
  .onLoad :: turnEvents ++ [.voicePaySuccess completeResponse]

/-- A completed payment turn followed by a new press with permission granted. -/
def secondPressEvents : List Event :=
  paidEvents ++ [.startRecord, .authorizeSuccess]

/-- A response that completes a payment for order `O999`. -/
def secondCompleteResponse : VoicePayData :=
  { success := .bool true
    reply_text := .str "已为您缴费"
    session_id := .str "s1"
    next_action := .str "complete"
    payment_order := .obj [("order_id", .str "O999")] }

/-- Two completed payment turns, for `O123` and then `O999`, followed by a
    new press with permission granted. -/
def twoOrderEvents : List Event :=
  paidEvents ++ turnEvents ++
    [.voicePaySuccess secondCompleteResponse, .startRecord, .authorizeSuccess]

/-- The page after `twoOrderEvents`. -/
def twoOrderWorld : World :=
  (run (initialWorld (.str "u1")) twoOrderEvents).getD (initialWorld (.str "u1"))

/-- The page while the voice-pay request of its second turn is in flight
    and the hand-off timer of the first turn, for `O123`, has not elapsed. -/
def secondUploadWorld : World :=
  (run (initialWorld (.str "u1")) (paidEvents ++ turnEvents)).getD (initialWorld (.str "u1"))

/-- The page `secondUploadWorld` after the response for `O999`, a reset and
    the elapse of the older timer. -/
def handoffWorld : World :=
  (run secondUploadWorld
    [.voicePaySuccess secondCompleteResponse, .resetSession, .timerElapsed]).getD
      (initialWorld (.str "u1"))

/-- Events in which the permission is denied and the button is released. -/
def deniedEvents : List Event :=
  [.onLoad, .startRecord, .authorizeFail]

/-- The page after `deniedEvents`. -/
def deniedWorld : World :=
  (run (initialWorld (.str "u1")) deniedEvents).getD (initialWorld (.str "u1"))

/-! ## Helper lemmas -/

/-- What one event does to `recognitionStatus`. -/
theorem step_status (w w1 : World) (e : Event) (h : step w e = some w1) :
    w1.data.recognitionStatus = statusAfter w.data.recognitionStatus e := by
  cases e <;> simp only [step] at h <;> (try split at h) <;>
    simp only [Option.some.injEq, reduceCtorEq] at h <;> subst h <;>
    simp [statusAfter, onLoad, loadUnpaidItems, initRecorder, emit, loadUnpaidItemsSuccess,
      startRecord, authorizeSuccess, authorizeFail, modalSuccess, stopRecord, recorderOnStop,
      uploadAndRecognize, recorderOnError, readFileSuccess, readFileFail, voicePayFail,
      handleVoicePaymentResponse, playTTSReply, ttsSuccess, ttsFail, audioEnded, timerElapsed,
      queryUnpaidByVoice, queryUnpaidSuccess, resetSession, onUnload] <;>
    (repeat' split) <;> simp_all

/-- What one event does to `currentOrder`: `resetSession` clears it, a
    completing response stores its order, nothing else touches it. -/
theorem step_currentOrder (w w1 : World) (e : Event) (h : step w e = some w1) :
    (e = .resetSession ∧ w1.data.currentOrder = .null) ∨
    (∃ d, e = .voicePaySuccess d ∧ Completing d ∧ w1.data.currentOrder = d.payment_order) ∨
    (e ≠ .resetSession ∧ (∀ d, e = .voicePaySuccess d → ¬ Completing d) ∧
      w1.data.currentOrder = w.data.currentOrder) := by
  cases e <;> simp only [step] at h <;> (try split at h) <;>
    simp only [Option.some.injEq, reduceCtorEq] at h <;> subst h <;>
    simp [Completing, onLoad, loadUnpaidItems, initRecorder, emit, loadUnpaidItemsSuccess,
      startRecord, authorizeSuccess, authorizeFail, modalSuccess, stopRecord, recorderOnStop,
      uploadAndRecognize, recorderOnError, readFileSuccess, readFileFail, voicePayFail,
      handleVoicePaymentResponse, playTTSReply, ttsSuccess, ttsFail, audioEnded, timerElapsed,
      queryUnpaidByVoice, queryUnpaidSuccess, resetSession, onUnload] <;>
    (repeat' split) <;> simp_all

/-- Along any run, `currentOrder` is what it was at the start (and neither a
    reset nor a completing response happened), or null, or the order of a
    completing response after which neither a reset nor another completing
    response happened. -/
theorem run_currentOrder (events : List Event) (w w1 : World) (h : run w events = some w1) :
    (w1.data.currentOrder = w.data.currentOrder ∧ Event.resetSession ∉ events ∧
      ∀ d, Event.voicePaySuccess d ∈ events → ¬ Completing d) ∨
    w1.data.currentOrder = .null ∨
    (∃ pre d post, events = pre ++ Event.voicePaySuccess d :: post ∧ Completing d ∧
      w1.data.currentOrder = d.payment_order ∧ Event.resetSession ∉ post ∧
      ∀ d1, Event.voicePaySuccess d1 ∈ post → ¬ Completing d1) := by
  induction events generalizing w with
  | nil =>
    simp only [run, Option.some.injEq] at h
    subst h
    exact Or.inl ⟨rfl, by simp, by simp⟩
  | cons e es ih =>
    simp only [run] at h
    cases hs : step w e with
    | none => simp [hs] at h
    | some w2 =>
      rw [hs] at h
      simp only [Option.some_bind] at h
      rcases ih w2 h with ⟨hco, hno, hq⟩ | hnull | ⟨pre, d, post, hev, hc, hco, hno, hq⟩
      · rcases step_currentOrder w w2 e hs with ⟨_, h2⟩ | ⟨d, hd, hc, h2⟩ | ⟨hne, hnc, h2⟩
        · exact Or.inr (Or.inl (hco.trans h2))
        · exact Or.inr (Or.inr ⟨[], d, es, by simp [hd], hc, hco.trans h2, hno, hq⟩)
        · refine Or.inl ⟨hco.trans h2, ?_, ?_⟩
          · intro hmem
            rcases List.mem_cons.mp hmem with h3 | h3
            · exact hne h3.symm
            · exact hno h3
          · intro d hmem
            rcases List.mem_cons.mp hmem with h3 | h3
            · exact hnc d h3.symm
            · exact hq d h3
      · exact Or.inr (Or.inl hnull)
      · exact Or.inr (Or.inr ⟨e :: pre, d, post, by simp [hev], hc, hco, hno, hq⟩)

/-- What one event does to the timers: the elapse of a timer removes the
    oldest one, every other event keeps them all and may set a new one. -/
theorem step_timers (w w1 : World) (e : Event) (h : step w e = some w1) :
    (e = .timerElapsed ∧ ∃ url, w.timers = url :: w1.timers) ∨
    (e ≠ .timerElapsed ∧ ∃ extra, w1.timers = w.timers ++ extra) := by
  cases e <;> simp only [step] at h <;> (try split at h) <;>
    simp only [Option.some.injEq, reduceCtorEq] at h <;> subst h <;>
    simp [onLoad, loadUnpaidItems, initRecorder, emit, loadUnpaidItemsSuccess,
      startRecord, authorizeSuccess, authorizeFail, modalSuccess, stopRecord, recorderOnStop,
      uploadAndRecognize, recorderOnError, readFileSuccess, readFileFail, voicePayFail,
      handleVoicePaymentResponse, playTTSReply, ttsSuccess, ttsFail, audioEnded, timerElapsed,
      queryUnpaidByVoice, queryUnpaidSuccess, resetSession, onUnload] <;>
    (repeat' split) <;> simp_all

/-- Along any run, the timers are the initial ones without as many of the
    oldest as timer elapses were delivered, followed by timers set since. -/
theorem run_timers (events : List Event) (w w1 : World) (h : run w events = some w1) :
    ∃ added, w1.timers = w.timers.drop (events.count .timerElapsed) ++ added := by
  induction events generalizing w with
  | nil =>
    simp only [run, Option.some.injEq] at h
    subst h
    exact ⟨[], by simp⟩
  | cons e es ih =>
    simp only [run] at h
    cases hs : step w e with
    | none => simp [hs] at h
    | some w2 =>
      rw [hs] at h
      simp only [Option.some_bind] at h
      obtain ⟨added, hadd⟩ := ih w2 h
      rcases step_timers w w2 e hs with ⟨he, url, hurl⟩ | ⟨hne, extra, hextra⟩
      · refine ⟨added, ?_⟩
        subst he
        rw [hadd, hurl]
        simp
      · have hcount : (e :: es).count Event.timerElapsed = es.count Event.timerElapsed := by
          rw [List.count_cons]
          simp [hne]
        rw [hcount, hadd, hextra, List.drop_append_eq_append_drop]
        exact ⟨_, List.append_assoc _ _ _⟩

/-- Every value `statusAfter` produces from a documented value is documented. -/
theorem statusAfter_mem (old : String) (e : Event) (h : old ∈ statusValues) :
    statusAfter old e ∈ statusValues := by
  cases e <;> simp only [statusAfter] <;> (try split) <;> first
    | exact h
    | simp [statusValues]

/-- Along any run from a documented status, the status stays documented. -/
theorem run_status_mem (events : List Event) (w w1 : World) (h : run w events = some w1)
    (hw : w.data.recognitionStatus ∈ statusValues) :
    w1.data.recognitionStatus ∈ statusValues := by
  induction events generalizing w with
  | nil =>
    simp only [run, Option.some.injEq] at h
    subst h
    exact hw
  | cons e es ih =>
    simp only [run] at h
    cases hs : step w e with
    | none => simp [hs] at h
    | some w2 =>
      rw [hs] at h
      simp only [Option.some_bind] at h
      refine ih w2 h ?_
      rw [step_status w w2 e hs]
      exact statusAfter_mem _ e hw

/-! ## Beginning a turn while one is active -/

/-- C1 (as stated, refuted): after load, press, grant and release the page is
    in status recognizing; a second press with permission granted is not
    rejected: status, reply text and recording flag change and the recorder
    is started again. -/
theorem startRecord_while_recognizing_changes_state :
    (run (initialWorld (.str "u1")) busyEvents).map
        (fun w => (w.data.recognitionStatus, w.data.replyText, w.data.isRecording,
          w.effects.length))
      = some ("recognizing", .str "正在识别...", false, 5) ∧
    (run (initialWorld (.str "u1")) (busyEvents ++ [.startRecord, .authorizeSuccess])).map
        (fun w => (w.data.recognitionStatus, w.data.replyText, w.data.isRecording,
          w.effects.drop 5))
      = some ("recording", .str "请说话...", true,
          [.authorize "scope.record", .recorderStart 60000 16000 1 48000 "mp3",
           .vibrateShort]) := by
  decide

/-- C1 (amended): from every page state, whatever its status, startRecord
    followed by the grant of the permission sets isRecording, status
    recording and the prompt text, keeps sessionId and currentOrder, and
    starts the recorder. -/
theorem startRecord_granted_begins_recording (w : World) :
    ∃ w1, run w [.startRecord, .authorizeSuccess] = some w1 ∧
      w1.data.isRecording = true ∧
      w1.data.recognitionStatus = "recording" ∧
      w1.data.replyText = .str "请说话..." ∧
      w1.data.sessionId = w.data.sessionId ∧
      w1.data.currentOrder = w.data.currentOrder ∧
      w1.effects = w.effects ++
        [.authorize "scope.record", .recorderStart 60000 16000 1 48000 "mp3",
         .vibrateShort] := by
  simp [run, step, startRecord, authorizeSuccess, emit]

/-! ## Responses that arrive after a reset -/

/-- C2 (as stated, refuted): with a voice-pay request in flight and the
    session reset, the page is idle with empty session; delivering the
    response then changes status, sessionId, replyText and currentOrder. -/
theorem stale_response_changes_state :
    (run (initialWorld (.str "u1")) staleEvents).map
        (fun w => (w.data.recognitionStatus, w.data.sessionId, w.data.replyText,
          w.data.currentOrder, w.pendingVoicePay))
      = some ("idle", .str "", .str "", .null, 1) ∧
    (run (initialWorld (.str "u1")) (staleEvents ++ [.voicePaySuccess completeResponse])).map
        (fun w => (w.data.recognitionStatus, w.data.sessionId, w.data.replyText,
          w.data.currentOrder))
      = some ("success", .str "s1", .str "已为您缴费",
          .obj [("order_id", .str "O123")]) := by
  decide

/-- C2 (amended): when resetSession runs while a voice-pay request is in
    flight, its response is still applied.  A response sets the status to
    success or error by data.success and sets the reply text; after it
    sessionId is data.session_id when the response is successful with a
    non-empty session_id and is the empty string otherwise, and currentOrder
    is data.payment_order when the response is completing and is null
    otherwise.  The transport failure callback sets status error and the
    network message and leaves sessionId empty and currentOrder null. -/
theorem response_after_reset_is_applied (w : World) (d : VoicePayData)
    (h : 0 < w.pendingVoicePay) :
    ∃ w1 w2 w3, step w .resetSession = some w1 ∧
      step w1 (.voicePaySuccess d) = some w2 ∧
      step w1 .voicePayFail = some w3 ∧
      w2.data.recognitionStatus = (if truthy d.success then "success" else "error") ∧
      w2.data.replyText =
        (if truthy d.success then d.reply_text
         else jsOr d.reply_text (.str "处理失败，请重试")) ∧
      w2.data.sessionId =
        (if truthy d.success then jsOr d.session_id (.str "") else .str "") ∧
      w2.data.currentOrder =
        (if truthy d.success ∧ d.next_action = .str "complete" ∧ truthy d.payment_order
         then d.payment_order else .null) ∧
      w3.data.recognitionStatus = "error" ∧
      w3.data.replyText = .str "网络连接失败，请稍后重试" ∧
      w3.data.sessionId = .str "" ∧
      w3.data.currentOrder = .null := by
  have hp : 0 < (resetSession w).pendingVoicePay := h
  refine ⟨resetSession w,
    handleVoicePaymentResponse
      { resetSession w with pendingVoicePay := (resetSession w).pendingVoicePay - 1 } d,
    voicePayFail
      { resetSession w with pendingVoicePay := (resetSession w).pendingVoicePay - 1 },
    rfl, ?_, ?_, ?_⟩
  · simp only [step, hp, if_true]
  · simp only [step, hp, if_true]
  · simp only [handleVoicePaymentResponse, voicePayFail, playTTSReply, emit, resetSession]
    by_cases hs : truthy d.success = true
    · by_cases hc : d.next_action = .str "complete" ∧ truthy d.payment_order = true
      · simp [hs, hc]
      · simp [hs, hc]
    · simp [hs]

/-- C2 witness: the amended statement at the page whose first upload is in
    flight, with the completing response. -/
theorem response_after_reset_is_applied_witness :
    0 < uploadingWorld.pendingVoicePay ∧
    ∃ w1 w2 w3, step uploadingWorld .resetSession = some w1 ∧
      step w1 (.voicePaySuccess completeResponse) = some w2 ∧
      step w1 .voicePayFail = some w3 ∧
      w2.data.recognitionStatus
        = (if truthy completeResponse.success then "success" else "error") ∧
      w2.data.replyText =
        (if truthy completeResponse.success then completeResponse.reply_text
         else jsOr completeResponse.reply_text (.str "处理失败，请重试")) ∧
      w2.data.sessionId =
        (if truthy completeResponse.success then jsOr completeResponse.session_id (.str "")
         else .str "") ∧
      w2.data.currentOrder =
        (if truthy completeResponse.success ∧ completeResponse.next_action = .str "complete" ∧
            truthy completeResponse.payment_order
         then completeResponse.payment_order else .null) ∧
      w3.data.recognitionStatus = "error" ∧
      w3.data.replyText = .str "网络连接失败，请稍后重试" ∧
      w3.data.sessionId = .str "" ∧
      w3.data.currentOrder = .null :=
  ⟨by decide, response_after_reset_is_applied uploadingWorld completeResponse (by decide)⟩

/-! ## Applying a response -/

/-- C3: handleVoicePaymentResponse on a response with success, next_action
    complete and a payment_order leaves status success and currentOrder
    equal to that order; on a response without success it leaves status
    error, whatever next_action and payment_order are. -/
theorem handleVoicePaymentResponse_status_and_order (w : World) (d : VoicePayData) :
    (truthy d.success = true → d.next_action = .str "complete" →
        truthy d.payment_order = true →
      (handleVoicePaymentResponse w d).data.recognitionStatus = "success" ∧
      (handleVoicePaymentResponse w d).data.currentOrder = d.payment_order) ∧
    (truthy d.success = false →
      (handleVoicePaymentResponse w d).data.recognitionStatus = "error") := by
  constructor
  · intro hs hn hp
    simp [handleVoicePaymentResponse, playTTSReply, emit, hs, hn, hp]
  · intro hs
    simp [handleVoicePaymentResponse, playTTSReply, emit, hs]

/-- C3 witness: the completing response and the bare failure, applied to the
    page whose first upload is in flight. -/
theorem handleVoicePaymentResponse_status_and_order_witness :
    ((handleVoicePaymentResponse uploadingWorld completeResponse).data.recognitionStatus
        = "success" ∧
      (handleVoicePaymentResponse uploadingWorld completeResponse).data.currentOrder
        = .obj [("order_id", .str "O123")]) ∧
    (handleVoicePaymentResponse uploadingWorld bareFailure).data.recognitionStatus = "error" :=
  ⟨(handleVoicePaymentResponse_status_and_order uploadingWorld completeResponse).1
      (by decide) (by decide) (by decide),
   (handleVoicePaymentResponse_status_and_order uploadingWorld bareFailure).2 (by decide)⟩

/-- C4: from every page state resetSession can run and yields status idle,
    empty sessionId, empty replyText and null currentOrder. -/
theorem resetSession_yields_initial_session (w : World) :
    step w .resetSession = some (resetSession w) ∧
    (resetSession w).data.recognitionStatus = "idle" ∧
    (resetSession w).data.sessionId = .str "" ∧
    (resetSession w).data.replyText = .str "" ∧
    (resetSession w).data.currentOrder = .null :=
  ⟨rfl, rfl, rfl, rfl, rfl⟩

/-! ## The pending order -/

/-- C5 (as stated, refuted): after a completed payment turn the order is
    stored with status success; pressing record again (permission granted)
    gives status recording while currentOrder is still that order. -/
theorem currentOrder_survives_new_turn :
    (run (initialWorld (.str "u1")) paidEvents).map
        (fun w => (w.data.recognitionStatus, w.data.currentOrder))
      = some ("success", .obj [("order_id", .str "O123")]) ∧
    (run (initialWorld (.str "u1")) secondPressEvents).map
        (fun w => (w.data.recognitionStatus, w.data.currentOrder))
      = some ("recording", .obj [("order_id", .str "O123")]) := by
  decide

/-- C5 (amended): in every state reachable from the page as constructed,
    currentOrder is non-null only if a completing response (success,
    next_action complete, payment_order present) was handled and no
    resetSession ran after it; currentOrder is the order of the latest such
    response: no completing response was handled after it. -/
theorem currentOrder_nonnull_only_after_completing (userId : JsVal) (events : List Event)
    (w : World) (h : run (initialWorld userId) events = some w)
    (hne : w.data.currentOrder ≠ .null) :
    ∃ pre d post, events = pre ++ Event.voicePaySuccess d :: post ∧ Completing d ∧
      w.data.currentOrder = d.payment_order ∧ Event.resetSession ∉ post ∧
      ∀ d1, Event.voicePaySuccess d1 ∈ post → ¬ Completing d1 := by
  rcases run_currentOrder events (initialWorld userId) w h with ⟨hco, _⟩ | hnull | hex
  · exact absurd hco hne
  · exact absurd hnull hne
  · exact hex

/-- C5 witness: the amended statement on a run with two completed payments,
    for orders O123 and then O999. -/
theorem currentOrder_nonnull_only_after_completing_witness :
    (run (initialWorld (.str "u1")) twoOrderEvents = some twoOrderWorld ∧
      twoOrderWorld.data.currentOrder ≠ .null ∧
      twoOrderWorld.data.currentOrder = .obj [("order_id", .str "O999")]) ∧
    ∃ pre d post,
      twoOrderEvents = pre ++ Event.voicePaySuccess d :: post ∧ Completing d ∧
      twoOrderWorld.data.currentOrder = d.payment_order ∧
      Event.resetSession ∉ post ∧
      ∀ d1, Event.voicePaySuccess d1 ∈ post → ¬ Completing d1 :=
  ⟨⟨by decide, by decide, by decide⟩,
   currentOrder_nonnull_only_after_completing (.str "u1") twoOrderEvents twoOrderWorld
    (by decide) (by decide)⟩

/-! ## The session id -/

/-- C6 (as stated, refuted): the first turn stores session id s1; a second,
    successful response without session_id replaces it by the empty string
    (the second request had carried s1). -/
theorem success_without_session_id_clears_sessionId :
    (run (initialWorld (.str "u1")) (paidEvents ++ turnEvents)).map
        (fun w => (w.data.sessionId, w.effects.getLast?))
      = some (.str "s1",
          some (.request "POST" "https://your-api.com/api/payment/voice-pay"
            [("user_id", .str "u1"), ("audio_data", .str "QUJD"),
             ("session_id", .str "s1")])) ∧
    (run (initialWorld (.str "u1"))
        (paidEvents ++ turnEvents ++ [.voicePaySuccess plainResponse])).map
        (fun w => w.data.sessionId)
      = some (.str "") := by
  decide

/-- C6 (amended): a successful response sets sessionId to data.session_id
    when that is non-empty and to the empty string when it is absent or
    empty; a failed response leaves sessionId as it was, whatever
    data.session_id is. -/
theorem handleVoicePaymentResponse_sessionId (w : World) (d : VoicePayData) :
    (handleVoicePaymentResponse w d).data.sessionId =
      if truthy d.success then (if truthy d.session_id then d.session_id else .str "")
      else w.data.sessionId := by
  simp only [handleVoicePaymentResponse, playTTSReply, emit, jsOr]
  by_cases hs : truthy d.success = true
  · by_cases hc : d.next_action = .str "complete" ∧ truthy d.payment_order = true
    · simp [hs, hc]
    · simp [hs, hc]
  · simp [hs]

/-! ## The hand-off timer -/

/-- C7 (as stated, refuted): after a completing response the hand-off timer
    is set; resetSession clears the session but not the timer, and when the
    delay elapses the page navigates to the confirmation page of order O123. -/
theorem reset_does_not_suppress_handoff :
    (run (initialWorld (.str "u1")) (paidEvents ++ [.resetSession])).map
        (fun w => (w.data.recognitionStatus, w.data.currentOrder, w.timers,
          w.effects.getLast?))
      = some ("idle", .null, ["/pages/payment/confirm?orderId=O123"],
          some (.setTimeout 2000 "/pages/payment/confirm?orderId=O123")) ∧
    (run (initialWorld (.str "u1")) (paidEvents ++ [.resetSession, .timerElapsed])).map
        (fun w => (w.timers, w.effects.getLast?))
      = some ([], some (.navigateTo "/pages/payment/confirm?orderId=O123")) := by
  decide

/-- C7 (amended): resetSession does not cancel the hand-off.  From every
    page state, when a completing response is handled, resetSession runs
    next, and then any events happen among which exactly the timers set
    earlier elapse, the next timer to elapse is the one of this response and
    the page navigates to the confirmation page with its order id. -/
theorem handoff_fires_after_reset (w w3 : World) (d : VoicePayData) (events : List Event)
    (hc : Completing d)
    (hrun : run w (.voicePaySuccess d :: .resetSession :: events) = some w3)
    (hcount : events.count .timerElapsed = w.timers.length) :
    ∃ w4, step w3 .timerElapsed = some w4 ∧
      w4.effects = w3.effects ++ [.navigateTo (confirmUrl d.payment_order)] := by
  obtain ⟨hs, hn, ho⟩ := hc
  simp only [run] at hrun
  cases h1 : step w (.voicePaySuccess d) with
  | none => simp [h1] at hrun
  | some w1 =>
    rw [h1] at hrun
    simp only [Option.some_bind, step] at hrun
    have ht1 : w1.timers = w.timers ++ [confirmUrl d.payment_order] := by
      simp only [step] at h1
      split at h1
      · simp only [Option.some.injEq] at h1
        subst h1
        simp [handleVoicePaymentResponse, playTTSReply, emit, hs, hn, ho]
      · simp at h1
    obtain ⟨added, hadd⟩ := run_timers events (resetSession w1) w3 hrun
    have ht3 : w3.timers = confirmUrl d.payment_order :: added := by
      rw [hadd, hcount]
      simp [resetSession, ht1]
    refine ⟨timerElapsed { w3 with timers := added } (confirmUrl d.payment_order), ?_, ?_⟩
    · simp only [step, ht3]
    · simp [timerElapsed, emit]

/-- C7 witness: the amended statement at the page whose second upload is in
    flight while the hand-off for O123 is still pending; the response is for
    O999, and after the reset the older timer elapses. -/
theorem handoff_fires_after_reset_witness :
    (Completing secondCompleteResponse ∧
      run secondUploadWorld
        [.voicePaySuccess secondCompleteResponse, .resetSession, .timerElapsed]
        = some handoffWorld ∧
      [Event.timerElapsed].count .timerElapsed = secondUploadWorld.timers.length) ∧
    ∃ w4, step handoffWorld .timerElapsed = some w4 ∧
      w4.effects = handoffWorld.effects ++
        [.navigateTo (confirmUrl secondCompleteResponse.payment_order)] :=
  ⟨⟨⟨by decide, by decide, by decide⟩, by decide, by decide⟩,
   handoff_fires_after_reset secondUploadWorld handoffWorld secondCompleteResponse
    [.timerElapsed] ⟨by decide, by decide, by decide⟩ (by decide) (by decide)⟩

/-! ## Transport failure -/

/-- C8: the fail callback of the voice-pay request leaves status error and
    the fixed network message, keeps currentOrder and sessionId, makes no
    platform call (no request, no timer, no navigation) and leaves the
    timers and the calls in flight as they were. -/
theorem voicePayFail_sets_error_only (w : World) :
    (voicePayFail w).data.recognitionStatus = "error" ∧
    (voicePayFail w).data.replyText = .str "网络连接失败，请稍后重试" ∧
    (voicePayFail w).data.currentOrder = w.data.currentOrder ∧
    (voicePayFail w).data.sessionId = w.data.sessionId ∧
    (voicePayFail w).effects = w.effects ∧
    (voicePayFail w).timers = w.timers ∧
    (voicePayFail w).pendingVoicePay = w.pendingVoicePay ∧
    (voicePayFail w).pendingReads = w.pendingReads ∧
    (voicePayFail w).pendingQuery = w.pendingQuery ∧
    (voicePayFail w).pendingTTS = w.pendingTTS :=
  ⟨rfl, rfl, rfl, rfl, rfl, rfl, rfl, rfl, rfl, rfl⟩

/-! ## The status cycle -/

/-- C9 (as stated, refuted): when the permission is denied the page stays
    idle, and releasing the button (stopRecord) then moves the status from
    idle to recognizing, an edge outside the cycle. -/
theorem stopRecord_from_idle_recognizes :
    (run (initialWorld (.str "u1")) deniedEvents).map
        (fun w => w.data.recognitionStatus) = some "idle" ∧
    (run (initialWorld (.str "u1")) (deniedEvents ++ [.stopRecord])).map
        (fun w => w.data.recognitionStatus) = some "recognizing" := by
  decide

/-- C9 (amended): in every state reachable from the page as constructed the
    status is one of the five documented values, and every event sets the
    status by its kind alone, from whatever status: grant of the permission
    to recording, stopRecord to recognizing, recorder error, file-read
    failure and transport failure to error, a response to success or error
    by data.success, resetSession to idle; no other event changes it. -/
theorem status_values_and_transitions (userId : JsVal) (events : List Event) (w : World)
    (h : run (initialWorld userId) events = some w) :
    w.data.recognitionStatus ∈ statusValues ∧
    ∀ e w1, step w e = some w1 →
      w1.data.recognitionStatus = statusAfter w.data.recognitionStatus e :=
  ⟨run_status_mem events (initialWorld userId) w h (by simp [initialWorld, initialData, statusValues]),
   fun e w1 hs => step_status w w1 e hs⟩

/-- C9 witness: the amended statement at the page on which the permission
    was denied. -/
theorem status_values_and_transitions_witness :
    run (initialWorld (.str "u1")) deniedEvents = some deniedWorld ∧
    (deniedWorld.data.recognitionStatus ∈ statusValues ∧
      ∀ e w1, step deniedWorld e = some w1 →
        w1.data.recognitionStatus = statusAfter deniedWorld.data.recognitionStatus e) :=
  ⟨by decide, status_values_and_transitions (.str "u1") deniedEvents deniedWorld (by decide)⟩

/-! ## Playback of the reply -/

/-- C10 (the code at the failing input): on a failed response without
    reply_text, from every page state, handleVoicePaymentResponse makes one
    platform call, textToSpeech with content undefined, while the replyText
    it stores is the fallback message. -/
theorem failed_response_speaks_undefined (w : World) :
    (handleVoicePaymentResponse w bareFailure).effects
      = w.effects ++ [.textToSpeech "zh_CN" .undefined] ∧
    (handleVoicePaymentResponse w bareFailure).data.replyText = .str "处理失败，请重试" ∧
    (handleVoicePaymentResponse w bareFailure).pendingTTS = w.pendingTTS ++ [.undefined] := by
  simp [handleVoicePaymentResponse, playTTSReply, emit, bareFailure, truthy, jsOr]

end VoicePayment
